import Mathlib

/-!
Verification of the decision-and-feedback engine of the chatbot support
platform against its specification.

The repository ships the React/TypeScript frontend (`frontend/src`), while the
FastAPI backend services (`agent_orchestrator.py`, `router_agent.py`,
`knowledge_agent.py`, `escalation_agent.py`, `retraining_service.py`,
`evaluation_service.py`, `experiment_service.py`) are only described by the
design documents.  Frontend behaviour is embedded directly from the
TypeScript sources; backend behaviour is modelled from the specification,
and every such definition is marked `Modelled from the spec:` in its doc
comment.  Confidence scores and thresholds are rationals (ℚ).
-/

namespace ChatbotSpec

/-- Message type tags, from `frontend/src/services/api.ts` (`Message.message_type`:
`customer | ai_draft | agent_edited | final | agent_only`). -/
inductive MessageType where
  | customer
  | ai_draft
  | agent_edited
  | final
  | agent_only
deriving DecidableEq, Repr

/-- Intent categories, the fixed closed set of the Intent Classifier
(spec section 4.2 and the router agent documentation). -/
inductive Intent where
  | general
  | faq
  | order_inquiry
  | technical_support
  | complaint
deriving DecidableEq, Repr

/-- Agent types emitted by the orchestrator (`router`, `knowledge`, `escalation`). -/
inductive AgentType where
  | router
  | knowledge
  | escalation
deriving DecidableEq, Repr

/-- A stored message, from the `Message` interface in
`frontend/src/services/api.ts` (lines 37-45).  Timestamps are modelled as
naturals. -/
structure Message where
  id : Nat
  conversation_id : Nat
  content : String
  message_type : MessageType
  confidence_score : Option ℚ
  created_at : Nat
  original_ai_content : Option String
deriving DecidableEq, Repr

/-! ## Knowledge-retrieval confidence calibration (spec section 4.3)

Modelled from the spec: the knowledge agent is not under the shipped sources;
the calibration below follows the spec's fixed piecewise mapping
`s>0.7→0.85, s>0.5→0.65, s>0.3→0.4, else→0.3; no matches → 0.3`. -/

/-- Modelled from the spec: `calculate_confidence_score` of the knowledge
agent.  Input is the best match's raw similarity/overlap score, `none` when
retrieval produced no matches. -/
def calculateConfidenceScore : Option ℚ → ℚ
  | none => 3/10
  | some s =>
    if s > 7/10 then 17/20
    else if s > 1/2 then 13/20
    else if s > 3/10 then 2/5
    else 3/10

lemma calculateConfidenceScore_cases (best : Option ℚ) :
    calculateConfidenceScore best = 3/10 ∨ calculateConfidenceScore best = 2/5 ∨
      calculateConfidenceScore best = 13/20 ∨ calculateConfidenceScore best = 17/20 := by
  cases best with
  | none => left; rfl
  | some s =>
    simp only [calculateConfidenceScore]
    split_ifs <;> simp

lemma calculateConfidenceScore_bounds (best : Option ℚ) :
    0 ≤ calculateConfidenceScore best ∧ calculateConfidenceScore best ≤ 1 := by
  rcases calculateConfidenceScore_cases best with h | h | h | h <;> rw [h] <;> norm_num

/-! ## Escalation predicate (spec section 4.4, step 2) -/

/-- The fixed human-handoff keyword set (spec section 4.4 step 2). -/
def handoffKeywords : List String := ["human", "agent", "speak to someone"]

/-- Lower-cased character data of a string, for case-insensitive matching. -/
def lowerChars (s : String) : List Char := s.data.map Char.toLower

/-- Substring test on character lists: `containsSub needle hay` is `true`
iff `needle` occurs contiguously inside `hay`. -/
def containsSub : List Char → List Char → Bool
  | n, [] => n.isEmpty
  | n, h :: t => n.isPrefixOf (h :: t) || containsSub n t

/-- Case-insensitive substring test between a message and one keyword. -/
def containsKeyword (msg kw : String) : Bool :=
  containsSub (lowerChars kw) (lowerChars msg)

/-- True iff the message contains one of the fixed handoff keywords as a
case-insensitive substring. -/
def containsHandoffRequest (msg : String) : Bool :=
  handoffKeywords.any (fun kw => containsKeyword msg kw)

/-- Modelled from the spec: the router-level `should_escalate` check
(spec section 4.4 step 2): low intent confidence (< 0.4), complaint intent,
or an explicit human-handoff request. -/
def shouldEscalateRouter (intent : Intent) (confidence : ℚ) (userMessage : String) : Bool :=
  if confidence < 2/5 then true
  else if intent = Intent.complaint then true
  else if containsHandoffRequest userMessage then true
  else false

/-- Modelled from the spec: the full escalation predicate.  The orchestrator
additionally escalates `technical_support` messages below the relaxed floor
of 0.6 (spec section 4.4 step 2, last sentence). -/
def shouldEscalate (intent : Intent) (confidence : ℚ) (userMessage : String) : Bool :=
  shouldEscalateRouter intent confidence userMessage ||
    (intent = Intent.technical_support && confidence < 3/5)

/-- The per-intent escalation floor: 0.6 for `technical_support`, 0.4 otherwise. -/
def escalationFloor (intent : Intent) : ℚ :=
  if intent = Intent.technical_support then 3/5 else 2/5

lemma shouldEscalateRouter_iff (intent : Intent) (confidence : ℚ) (msg : String) :
    shouldEscalateRouter intent confidence msg = true ↔
      (confidence < 2/5 ∨ intent = Intent.complaint ∨ containsHandoffRequest msg = true) := by
  unfold shouldEscalateRouter
  split_ifs with h1 h2 h3 <;> simp_all

/-! ## Claim theorems C2 and C3 -/

/-- C2: For every inbound message, escalation is triggered if and only if the
intent confidence is below 0.4 (below 0.6 when the intent is
`technical_support`), or the intent is `complaint`, or the message text
contains one of the fixed human-handoff keywords ("human", "agent",
"speak to someone") as a case-insensitive substring. -/
theorem escalation_predicate_characterization
    (intent : Intent) (confidence : ℚ) (msg : String) :
    shouldEscalate intent confidence msg = true ↔
      (confidence < escalationFloor intent ∨ intent = Intent.complaint ∨
        containsHandoffRequest msg = true) := by
  unfold shouldEscalate escalationFloor
  simp only [Bool.or_eq_true, Bool.and_eq_true, decide_eq_true_eq, shouldEscalateRouter_iff]
  by_cases hi : intent = Intent.technical_support
  · subst hi
    rw [if_pos rfl]
    constructor
    · rintro ((h | h | h) | ⟨-, h⟩)
      · exact Or.inl (by linarith)
      · exact Or.inr (Or.inl h)
      · exact Or.inr (Or.inr h)
      · exact Or.inl h
    · rintro (h | h | h)
      · exact Or.inr ⟨rfl, h⟩
      · exact Or.inl (Or.inr (Or.inl h))
      · exact Or.inl (Or.inr (Or.inr h))
  · rw [if_neg hi]
    constructor
    · rintro ((h | h | h) | ⟨h, -⟩)
      · exact Or.inl h
      · exact Or.inr (Or.inl h)
      · exact Or.inr (Or.inr h)
      · exact absurd h hi
    · rintro (h | h | h)
      · exact Or.inl (Or.inl h)
      · exact Or.inl (Or.inr (Or.inl h))
      · exact Or.inl (Or.inr (Or.inr h))

/-- C3: The knowledge-retrieval confidence is the fixed piecewise mapping of
the best raw score: the output is always one of exactly
{0.3, 0.4, 0.65, 0.85}, the mapping is monotone in the raw score, and the
no-match case yields 0.3. -/
theorem retrieval_confidence_four_valued_monotone :
    (∀ best : Option ℚ,
      calculateConfidenceScore best = 3/10 ∨ calculateConfidenceScore best = 2/5 ∨
        calculateConfidenceScore best = 13/20 ∨ calculateConfidenceScore best = 17/20) ∧
    (∀ s t : ℚ, s ≤ t →
      calculateConfidenceScore (some s) ≤ calculateConfidenceScore (some t)) ∧
    calculateConfidenceScore none = 3/10 := by
  refine ⟨calculateConfidenceScore_cases, ?_, rfl⟩
  intro s t hst
  simp only [calculateConfidenceScore]
  split_ifs <;> linarith

/-- Witness for C3 at concrete scores 0.4 ≤ 0.75. -/
theorem retrieval_confidence_four_valued_monotone_witness :
    calculateConfidenceScore (some (2/5)) ≤ calculateConfidenceScore (some (3/4)) :=
  retrieval_confidence_four_valued_monotone.2.1 (2/5) (3/4) (by norm_num)

/-! ## Decision orchestrator (spec section 4.4) -/

/-- The auto-send confidence threshold, default 0.65
(`AUTO_SEND_THRESHOLD` in the backend configuration and READMEs). -/
def AUTO_SEND_THRESHOLD : ℚ := 13/20

/-- Modelled from the spec: the fixed customer-facing handoff message emitted
on escalation (spec section 4.4 step 3); its exact wording is irrelevant to
the claims. -/
def handoffMessage : String :=
  "I understand you need assistance. Connecting you with a human agent now."

/-- The record returned by `orchestrate_response`
(`{response, confidence, intent, agentType, shouldAutoSend}`, spec section 6). -/
structure OrchestratorResult where
  response : String
  confidence : ℚ
  intent : Intent
  agentType : AgentType
  shouldAutoSend : Bool
deriving DecidableEq, Repr

/-- Modelled from the spec: `orchestrate_response` (spec section 4.4).  The
intent classification result, the best retrieval score and the generation
primitive's output text are black-box inputs and passed as arguments. -/
def orchestrateResponse (intent : Intent) (intentConfidence : ℚ) (bestMatch : Option ℚ)
    (userMessage generated : String) : OrchestratorResult :=
  if shouldEscalate intent intentConfidence userMessage then
    { response := handoffMessage
      confidence := 1
      intent := intent
      agentType := AgentType.escalation
      shouldAutoSend := true }
  else
    { response := generated
      confidence := calculateConfidenceScore bestMatch
      intent := intent
      agentType := AgentType.knowledge
      shouldAutoSend := decide (calculateConfidenceScore bestMatch ≥ AUTO_SEND_THRESHOLD) }

/-- The `AIResponse` interface consumed by the frontend from
`POST /api/ai/generate` (`frontend/src/services/api.ts`, lines 47-54).
`matched_articles` is an untyped array in the source and modelled as a list of
strings; `reasoning`, `auto_send_threshold` and `should_auto_send` are
optional fields. -/
structure AIResponse where
  response : String
  confidence_score : ℚ
  matched_articles : List String
  reasoning : Option String
  auto_send_threshold : Option ℚ
  should_auto_send : Option Bool
deriving DecidableEq, Repr

/-- Whether a client-side `AIResponse` value actually carries the auto-send
flag (the `should_auto_send` field is optional in the interface). -/
def aiResponseCarriesAutoSendFlag (r : AIResponse) : Bool :=
  r.should_auto_send.isSome

/-- Outcome of the customer chat handling of an AI response
(`handleSendMessage` in `frontend/src/pages/CustomerChat.tsx`, lines 104-129):
either the answer is auto-sent as a `final` message, or a pending-review
placeholder is shown. -/
inductive ChatOutcome where
  | autoSent (content : String) (confidence : ℚ)
  | pendingReview
deriving DecidableEq, Repr

/-- The customer chat decision from `CustomerChat.tsx`: auto-send the AI
answer iff `confidence_score >= 0.65`, otherwise show the pending-review
placeholder. -/
def customerChatHandleAIResponse (r : AIResponse) : ChatOutcome :=
  if r.confidence_score ≥ 13/20 then ChatOutcome.autoSent r.response r.confidence_score
  else ChatOutcome.pendingReview

/-! ## Claim theorems C1 and C4 -/

/-- C1: Every orchestrator result has confidence in [0,1] and
`shouldAutoSend = (confidence ≥ AUTO_SEND_THRESHOLD)`; escalation results
always have `shouldAutoSend = true` and confidence 1.  In the customer chat
path the AI answer is sent to the customer exactly when
`confidence_score ≥ 0.65`, and otherwise the pending-review placeholder is
shown. -/
theorem confidence_bounds_and_auto_send :
    (∀ (i : Intent) (ic : ℚ) (b : Option ℚ) (msg gen : String),
      0 ≤ (orchestrateResponse i ic b msg gen).confidence ∧
      (orchestrateResponse i ic b msg gen).confidence ≤ 1 ∧
      (orchestrateResponse i ic b msg gen).shouldAutoSend =
        decide ((orchestrateResponse i ic b msg gen).confidence ≥ AUTO_SEND_THRESHOLD) ∧
      ((orchestrateResponse i ic b msg gen).agentType = AgentType.escalation →
        (orchestrateResponse i ic b msg gen).shouldAutoSend = true ∧
        (orchestrateResponse i ic b msg gen).confidence = 1)) ∧
    (∀ r : AIResponse,
      (customerChatHandleAIResponse r = ChatOutcome.autoSent r.response r.confidence_score ↔
        r.confidence_score ≥ 13/20) ∧
      (customerChatHandleAIResponse r = ChatOutcome.pendingReview ↔
        r.confidence_score < 13/20)) := by
  constructor
  · intro i ic b msg gen
    unfold orchestrateResponse
    split_ifs with hesc
    · refine ⟨by norm_num, by norm_num, ?_, fun _ => ⟨rfl, rfl⟩⟩
      simp only [decide_eq_true_eq]
      symm
      rw [decide_eq_true_iff]
      unfold AUTO_SEND_THRESHOLD
      norm_num
    · obtain ⟨h0, h1⟩ := calculateConfidenceScore_bounds b
      exact ⟨h0, h1, rfl, fun h => absurd h (by simp)⟩
  · intro r
    unfold customerChatHandleAIResponse
    split_ifs with hc
    · constructor
      · exact ⟨fun _ => hc, fun _ => rfl⟩
      · constructor
        · intro h
          exact absurd h (by simp)
        · intro h
          linarith
    · constructor
      · constructor
        · intro h
          exact absurd h (by simp)
        · intro h
          exact absurd h hc
      · exact ⟨fun _ => lt_of_not_le hc, fun _ => rfl⟩

/-- Witness for C1: a complaint message escalates and the escalation branch
auto-sends with confidence 1; the customer chat auto-sends a 0.85-confidence
response. -/
theorem confidence_bounds_and_auto_send_witness :
    ((orchestrateResponse Intent.complaint (9/10) none "msg" "gen").shouldAutoSend = true ∧
      (orchestrateResponse Intent.complaint (9/10) none "msg" "gen").confidence = 1) ∧
    customerChatHandleAIResponse
        { response := "Returns are accepted within 30 days."
          confidence_score := 17/20
          matched_articles := []
          reasoning := none
          auto_send_threshold := none
          should_auto_send := none } =
      ChatOutcome.autoSent "Returns are accepted within 30 days." (17/20) := by
  have hesc : shouldEscalate Intent.complaint (9/10) "msg" = true := by
    unfold shouldEscalate shouldEscalateRouter
    rw [if_neg (by norm_num)]
    simp
  have hagent :
      (orchestrateResponse Intent.complaint (9/10) none "msg" "gen").agentType =
        AgentType.escalation := by
    unfold orchestrateResponse
    rw [if_pos hesc]
  constructor
  · exact (confidence_bounds_and_auto_send.1 Intent.complaint (9/10) none "msg" "gen").2.2.2
      hagent
  · exact (confidence_bounds_and_auto_send.2
      { response := "Returns are accepted within 30 days."
        confidence_score := 17/20
        matched_articles := []
        reasoning := none
        auto_send_threshold := none
        should_auto_send := none }).1.2 (by norm_num)

/-- C4 (amended): the spec-level `orchestrate_response` always returns a
record with all five fields `response`, `confidence`, `intent`, `agentType`
and `shouldAutoSend`. -/
theorem orchestrate_response_shape :
    ∀ (i : Intent) (ic : ℚ) (b : Option ℚ) (msg gen : String),
      ∃ (r : String) (c : ℚ) (it : Intent) (a : AgentType) (s : Bool),
        orchestrateResponse i ic b msg gen =
          { response := r, confidence := c, intent := it, agentType := a,
            shouldAutoSend := s } := by
  intro i ic b msg gen
  exact ⟨_, _, _, _, _, rfl⟩

/-- C4 counterexample: the claim that the AI-generation response consumed by
the client always carries the auto-send flag is false — `should_auto_send` is
optional in the `AIResponse` interface (and `intent`/`agentType` are not
fields of it at all), so a well-typed response can omit the flag. -/
theorem client_response_auto_send_flag_optional :
    aiResponseCarriesAutoSendFlag
        { response := "Returns are accepted within 30 days."
          confidence_score := 17/20
          matched_articles := []
          reasoning := none
          auto_send_threshold := none
          should_auto_send := none } = false := rfl

/-! ## Evaluation service (spec section 4.6) -/

/-- Mean of a list of rationals, `none` when the list is empty. -/
def listMeanQ : List ℚ → Option ℚ
  | [] => none
  | x :: xs => some ((x :: xs).sum / ((x :: xs).length : ℚ))

/-- Per-conversation outcome used by the evaluation window: whether the
conversation escalated, and its optional satisfaction score. -/
structure ConvOutcome where
  escalated : Bool
  satisfaction : Option ℚ
deriving DecidableEq, Repr

/-- Modelled from the spec: the per-window aggregates of the evaluation
service (mean overlap score, mean semantic similarity, mean satisfaction,
deflection rate), each `none` when its sample set is empty. -/
structure EvalAggregates where
  avg_overlap : Option ℚ
  avg_semantic : Option ℚ
  avg_satisfaction : Option ℚ
  deflection_rate : Option ℚ
deriving DecidableEq, Repr

/-- Modelled from the spec: `compute_evaluation_metrics` over a window.  A
qualifying sample is a pair of already-computed (overlap, semantic
similarity) scores for a record where both an original response and an agent
correction exist; `convs` are the window's conversations.  Deflection rate is
`1 - escalated/total` (spec section 4.6). -/
def computeEvaluationMetrics (samples : List (ℚ × ℚ)) (convs : List ConvOutcome) :
    EvalAggregates :=
  { avg_overlap := listMeanQ (samples.map Prod.fst)
    avg_semantic := listMeanQ (samples.map Prod.snd)
    avg_satisfaction := listMeanQ (convs.filterMap (fun c => c.satisfaction))
    deflection_rate :=
      if convs = [] then none
      else some (1 - ((convs.filter (fun c => c.escalated)).length : ℚ) / (convs.length : ℚ)) }

/-- The `EvaluationMetrics` interface consumed by the frontend
(`frontend/src/services/api.ts`, lines 104-111): the three mean scores are
nullable, but `deflection_rate` is a plain (non-nullable) number. -/
structure EvaluationMetrics where
  avg_bleu_score : Option ℚ
  avg_semantic_similarity : Option ℚ
  avg_csat : Option ℚ
  deflection_rate : ℚ
  total_evaluations : ℕ
  total_csat_responses : ℕ
deriving DecidableEq, Repr

/-- A client-side `EvaluationMetrics` record faithfully represents a set of
spec-level window aggregates. -/
def metricsRepresents (a : EvalAggregates) (m : EvaluationMetrics) : Prop :=
  m.avg_bleu_score = a.avg_overlap ∧
  m.avg_semantic_similarity = a.avg_semantic ∧
  m.avg_csat = a.avg_satisfaction ∧
  some m.deflection_rate = a.deflection_rate

/-! ## Claim theorems C5 -/

/-- C5 counterexample: for the window with zero qualifying samples and zero
conversations, the claim that every aggregate including the deflection rate
is `None` cannot be realised by the client-consumed `EvaluationMetrics`
record, whose `deflection_rate` field is non-nullable. -/
theorem empty_window_aggregates_not_representable :
    ¬ ∃ m : EvaluationMetrics, metricsRepresents (computeEvaluationMetrics [] []) m := by
  rintro ⟨m, hrep⟩
  simp [metricsRepresents, computeEvaluationMetrics, listMeanQ] at hrep

/-- C5 (amended): on a window with zero qualifying samples the mean overlap,
mean semantic similarity and mean satisfaction aggregates are `None` (never
coerced to 0), while the deflection rate of the client-consumed
`EvaluationMetrics` interface is always a plain number and can never be
`None`. -/
theorem evaluation_aggregates_none_on_empty :
    ∀ (samples : List (ℚ × ℚ)) (convs : List ConvOutcome),
      (samples = [] →
        (computeEvaluationMetrics samples convs).avg_overlap = none ∧
        (computeEvaluationMetrics samples convs).avg_semantic = none) ∧
      (convs.filterMap (fun c => c.satisfaction) = [] →
        (computeEvaluationMetrics samples convs).avg_satisfaction = none) ∧
      (convs = [] → (computeEvaluationMetrics samples convs).deflection_rate = none) ∧
      (∀ m : EvaluationMetrics, ∃ q : ℚ, m.deflection_rate = q) := by
  intro samples convs
  refine ⟨?_, ?_, ?_, fun m => ⟨m.deflection_rate, rfl⟩⟩
  · rintro rfl
    simp [computeEvaluationMetrics, listMeanQ]
  · intro h
    simp [computeEvaluationMetrics, h, listMeanQ]
  · rintro rfl
    simp [computeEvaluationMetrics]

/-- Witness for C5 at the concrete empty window. -/
theorem evaluation_aggregates_none_on_empty_witness :
    (computeEvaluationMetrics [] []).avg_overlap = none ∧
    (computeEvaluationMetrics [] []).deflection_rate = none :=
  ⟨((evaluation_aggregates_none_on_empty [] []).1 rfl).1,
    (evaluation_aggregates_none_on_empty [] []).2.2.1 rfl⟩

/-! ## Experiment service (spec section 4.7) -/

/-- The two variants of an experiment. -/
inductive Variant where
  | A
  | B
deriving DecidableEq, Repr

/-- An experiment: two variants with a traffic-split ratio. -/
structure Experiment where
  id : Nat
  traffic_split : ℚ
deriving DecidableEq, Repr

/-- A conversation as seen by the experiment service: its id and its optional
stored variant assignment. -/
structure ConversationRec where
  id : Nat
  variant : Option Variant
deriving DecidableEq, Repr

/-- Modelled from the spec: a deterministic hash of the conversation id
(the spec fixes only that the hash is deterministic). -/
def hashConversation (cid : Nat) : Nat :=
  (cid * 2654435761) % 4294967296

/-- The hash mapped onto [0,1) as a rational with denominator 100. -/
def bucketOf (cid : Nat) : ℚ :=
  ((hashConversation cid % 100 : Nat) : ℚ) / 100

/-- Modelled from the spec: the pure variant assignment — the hashed bucket
compared against the experiment's traffic-split ratio. -/
def assignVariantPure (cid : Nat) (e : Experiment) : Variant :=
  if bucketOf cid < e.traffic_split then Variant.A else Variant.B

/-- Modelled from the spec: `assign_experiment_variant` — returns the stored
assignment when the conversation already has one, otherwise computes the
hash-based assignment and stores it. -/
def assignVariant (conv : ConversationRec) (e : Experiment) : Variant × ConversationRec :=
  match conv.variant with
  | some v => (v, conv)
  | none =>
    let v := assignVariantPure conv.id e
    (v, { conv with variant := some v })

/-! ## Claim theorems C6 -/

/-- C6: variant assignment is deterministic and idempotent — a repeated call
returns the same variant and leaves the conversation unchanged, a fresh
conversation receives the hash-based assignment, and that assignment is
variant A exactly when the conversation's hash bucket in [0,1) is below the
experiment's traffic-split ratio. -/
theorem assign_variant_deterministic :
    ∀ (conv : ConversationRec) (e : Experiment),
      ((assignVariant (assignVariant conv e).2 e).1 = (assignVariant conv e).1 ∧
        (assignVariant (assignVariant conv e).2 e).2 = (assignVariant conv e).2) ∧
      (conv.variant = none → (assignVariant conv e).1 = assignVariantPure conv.id e) ∧
      (assignVariantPure conv.id e = Variant.A ↔ bucketOf conv.id < e.traffic_split) := by
  intro conv e
  refine ⟨?_, ?_, ?_⟩
  · cases hconv : conv.variant with
    | some v => simp [assignVariant, hconv]
    | none => simp [assignVariant, hconv]
  · intro hconv
    simp [assignVariant, hconv]
  · unfold assignVariantPure
    split_ifs with h
    · simp [h]
    · simp [h]

/-- Witness for C6: a fresh conversation (no stored variant) receives the
hash-based assignment. -/
theorem assign_variant_deterministic_witness :
    (assignVariant { id := 7, variant := none } { id := 1, traffic_split := 1/2 }).1 =
      assignVariantPure 7 { id := 1, traffic_split := 1/2 } :=
  (assign_variant_deterministic { id := 7, variant := none }
    { id := 1, traffic_split := 1/2 }).2.1 rfl

/-! ## Feedback/retraining pipeline (spec section 4.5) -/

/-- A feedback row as consumed by the retraining pipeline: once collected
into a training record it is marked consumed. -/
structure Feedback where
  id : Nat
  conversation_id : Nat
  original : String
  correction : String
  intent : Intent
  consumed : Bool
deriving DecidableEq, Repr

/-- A training record derived from feedback (original response, correction,
intent, conversation reference, processed flag). -/
structure TrainingRecord where
  feedback_id : Nat
  conversation_id : Nat
  original : String
  correction : String
  intent : Intent
  processed : Bool
deriving DecidableEq, Repr

/-- The store the retraining pipeline reads and writes. -/
structure RetrainState where
  feedbacks : List Feedback
  records : List TrainingRecord
deriving DecidableEq, Repr

/-- Conversion of one feedback row into its training record (spec section
4.5 steps 1 and 4: created from the feedback and marked processed by the
run). -/
def toTrainingRecord (f : Feedback) : TrainingRecord :=
  { feedback_id := f.id
    conversation_id := f.conversation_id
    original := f.original
    correction := f.correction
    intent := f.intent
    processed := true }

/-- Marking a feedback row as consumed by the pipeline. -/
def markConsumed (f : Feedback) : Feedback :=
  { f with consumed := true }

/-- Modelled from the spec: `process_retraining` — collects the unconsumed
feedback into training records, marks the feedback consumed and the new
records processed, and reports the number of records processed.  (Steps 2-3
of the pipeline touch the article index and the intent-example cache, not
the record counts.) -/
def processRetraining (st : RetrainState) : Nat × RetrainState :=
  let newFeedback := st.feedbacks.filter (fun f => !f.consumed)
  ((newFeedback.map toTrainingRecord).length,
    { feedbacks := st.feedbacks.map markConsumed
      records := st.records ++ newFeedback.map toTrainingRecord })

lemma filter_unconsumed_after_mark (l : List Feedback) :
    (l.map markConsumed).filter (fun f => !f.consumed) = [] := by
  induction l with
  | nil => rfl
  | cons h t ih => simp [markConsumed, ih]

/-! ## Claim theorems C7 -/

/-- C7: retraining is idempotent over already-processed records — a second
run right after a first one (with no new feedback in between) processes zero
records and appends nothing, and `recordsProcessed` of a run equals the
number of previously-unprocessed feedback rows converted. -/
theorem retraining_idempotent :
    ∀ st : RetrainState,
      (processRetraining (processRetraining st).2).1 = 0 ∧
      (processRetraining st).1 = (st.feedbacks.filter (fun f => !f.consumed)).length ∧
      (processRetraining (processRetraining st).2).2.records =
        (processRetraining st).2.records := by
  intro st
  refine ⟨?_, ?_, ?_⟩
  · simp [processRetraining, filter_unconsumed_after_mark]
  · simp [processRetraining]
  · simp [processRetraining, filter_unconsumed_after_mark]

/-! ## Agent dashboard (V2, `src/unnamed/part_003`) and MVP dashboard
(`frontend/src/pages/AgentDashboard.tsx`) -/

/-- The V2 agent dashboard component state
(`src/unnamed/part_003`, `AgentDashboard`). -/
structure DashboardState where
  messages : List Message
  selectedConvId : Nat
  aiDraft : String
  aiDraftId : Option Nat
  aiConfidence : ℚ
  editedResponse : String
  wasResponseEdited : Bool
  finalResponseContent : String
  finalMessageId : Option Nat
  agentCorrection : String
deriving DecidableEq, Repr

/-- The PATCH applied to the pending draft by `handleSendResponse`
(`src/unnamed/part_003`, lines 133-138): content, message type and
confidence are always set; `original_ai_content` is set only when provided
(an `undefined` field leaves the stored value unchanged). -/
def applySendPatch (content : String) (mtype : MessageType) (conf : ℚ)
    (orig : Option String) (m : Message) : Message :=
  { m with
    content := content
    message_type := mtype
    confidence_score := some conf
    original_ai_content :=
      match orig with
      | some o => some o
      | none => m.original_ai_content }

/-- `handleSendResponse` of the V2 agent dashboard
(`src/unnamed/part_003`, lines 122-184): when an `ai_draft` is pending its
message is updated in place (type `agent_edited` or `final`,
`original_ai_content` set to the pre-edit draft only when edited); otherwise
a new message is appended.  `newId`/`newTime` stand for the server-assigned
id and timestamp of an appended message. -/
def handleSendResponse (st : DashboardState) (wasEdited : Bool)
    (newId newTime : Nat) : DashboardState :=
  let messageType := if wasEdited then MessageType.agent_edited else MessageType.final
  let originalContent : Option String := if wasEdited then some st.aiDraft else none
  match st.aiDraftId with
  | some draftId =>
    { st with
      messages := st.messages.map (fun m =>
        if m.id = draftId then
          applySendPatch st.editedResponse messageType st.aiConfidence originalContent m
        else m)
      finalMessageId := some draftId
      wasResponseEdited := wasEdited
      finalResponseContent := st.editedResponse
      aiDraft := ""
      aiDraftId := none
      editedResponse := "" }
  | none =>
    { st with
      messages := st.messages ++
        [{ id := newId
           conversation_id := st.selectedConvId
           content := st.editedResponse
           message_type := messageType
           confidence_score := some st.aiConfidence
           created_at := newTime
           original_ai_content := originalContent }]
      finalMessageId := some newId
      wasResponseEdited := wasEdited
      finalResponseContent := st.editedResponse
      aiDraft := ""
      aiDraftId := none
      editedResponse := "" }

/-- `generateDraft` of the agent dashboards saves the generated response as
a new `ai_draft` message (`src/unnamed/part_003`, lines 101-120): an
append, with no `original_ai_content`. -/
def generateDraftSave (st : DashboardState) (response : String) (conf : ℚ)
    (newId newTime : Nat) : DashboardState :=
  { st with
    aiDraft := response
    editedResponse := response
    aiConfidence := conf
    messages := st.messages ++
      [{ id := newId
         conversation_id := st.selectedConvId
         content := response
         message_type := MessageType.ai_draft
         confidence_score := some conf
         created_at := newTime
         original_ai_content := none }] }

/-- The payload of `submitFeedback` (`frontend/src/services/api.ts`,
lines 189-198). -/
structure FeedbackPayload where
  conversation_id : Nat
  message_id : Option Nat
  rating : String
  agent_correction : Option String
  notes : String
deriving DecidableEq, Repr

/-- The correction chosen by the V2 `handleSubmitFeedback`
(`src/unnamed/part_003`, line 231):
`agentCorrection || (wasResponseEdited ? finalResponseContent : undefined)` —
the typed correction if non-empty, else the final sent content when the
response was edited, else absent. -/
def v2FeedbackCorrection (agentCorrection : String) (wasResponseEdited : Bool)
    (finalResponseContent : String) : Option String :=
  if agentCorrection ≠ "" then some agentCorrection
  else if wasResponseEdited then some finalResponseContent
  else none

/-- `handleSubmitFeedback` of the V2 agent dashboard
(`src/unnamed/part_003`, lines 226-248). -/
def handleSubmitFeedback (st : DashboardState) (rating notes : String) : FeedbackPayload :=
  { conversation_id := st.selectedConvId
    message_id := st.finalMessageId
    rating := rating
    agent_correction :=
      v2FeedbackCorrection st.agentCorrection st.wasResponseEdited st.finalResponseContent
    notes := notes }

/-- The MVP agent dashboard state relevant to sending and feedback
(`frontend/src/pages/AgentDashboard.tsx`). -/
structure MvpDashboardState where
  selectedConvId : Nat
  aiDraft : String
  editedResponse : String
  aiConfidence : ℚ
deriving DecidableEq, Repr

/-- A message sent through `sendMessage` by the MVP dashboard. -/
structure SentMessage where
  conversation_id : Nat
  content : String
  message_type : MessageType
  confidence_score : ℚ
  original_ai_content : Option String
deriving DecidableEq, Repr

/-- `handleSendResponse` of the MVP agent dashboard
(`frontend/src/pages/AgentDashboard.tsx`, lines 101-126): always appends a
new message (`agent_edited` with the pre-edit draft as
`original_ai_content` when edited, `final` with none otherwise), then
clears `aiDraft` and `editedResponse` before the feedback form is shown. -/
def mvpHandleSendResponse (st : MvpDashboardState) (wasEdited : Bool) :
    SentMessage × MvpDashboardState :=
  ({ conversation_id := st.selectedConvId
     content := st.editedResponse
     message_type := if wasEdited then MessageType.agent_edited else MessageType.final
     confidence_score := st.aiConfidence
     original_ai_content := if wasEdited then some st.aiDraft else none },
   { st with aiDraft := "", editedResponse := "" })

/-- `handleSubmitFeedback` of the MVP agent dashboard
(`frontend/src/pages/AgentDashboard.tsx`, lines 154-172): the correction is
`editedResponse` when it differs from `aiDraft`, absent otherwise. -/
def mvpHandleSubmitFeedback (st : MvpDashboardState) (rating notes : String) :
    FeedbackPayload :=
  { conversation_id := st.selectedConvId
    message_id := none
    rating := rating
    agent_correction :=
      if st.editedResponse ≠ st.aiDraft then some st.editedResponse else none
    notes := notes }

/-- The rendered chat transcript: both agent dashboards and the V2 customer
chat render `messages.filter(m => m.message_type !== 'ai_draft')`
(`frontend/src/pages/AgentDashboard.tsx` line 284, `src/unnamed/part_003`
line 400, `src/unnamed/part_005` lines 307-308). -/
def renderedTranscript (ms : List Message) : List Message :=
  ms.filter (fun m => m.message_type != MessageType.ai_draft)

/-! ## Claim theorems C8, C9, C10 -/

/-- C8: no dashboard operation deletes a message.  `handleSendResponse`
either updates the pending draft in place or appends; every pre-existing
message id survives, messages that are not drafts are untouched, the updated
draft keeps a pointer to its pre-edit content exactly when the send was an
edit, and `generateDraft` and the MVP `handleSendResponse` only append (the
MVP append carries the pre-edit pointer exactly when edited). -/
theorem messages_append_or_draft_update :
    ∀ (st : DashboardState) (wasEdited : Bool) (newId newTime : Nat)
      (response : String) (conf : ℚ),
      (∀ m ∈ st.messages,
        ∃ m' ∈ (handleSendResponse st wasEdited newId newTime).messages, m'.id = m.id) ∧
      ((∀ m ∈ st.messages, st.aiDraftId = some m.id → m.message_type = MessageType.ai_draft) →
        ∀ m ∈ st.messages, m.message_type ≠ MessageType.ai_draft →
          m ∈ (handleSendResponse st wasEdited newId newTime).messages) ∧
      (∀ d ∈ st.messages, st.aiDraftId = some d.id → d.content = st.aiDraft →
        d.original_ai_content = none →
        (∃ m' ∈ (handleSendResponse st true newId newTime).messages,
          m'.id = d.id ∧ m'.content = st.editedResponse ∧
          m'.message_type = MessageType.agent_edited ∧
          m'.original_ai_content = some d.content) ∧
        (∃ m' ∈ (handleSendResponse st false newId newTime).messages,
          m'.id = d.id ∧ m'.content = st.editedResponse ∧
          m'.message_type = MessageType.final ∧ m'.original_ai_content = none)) ∧
      (∃ dm : Message,
        (generateDraftSave st response conf newId newTime).messages = st.messages ++ [dm] ∧
        dm.message_type = MessageType.ai_draft ∧ dm.original_ai_content = none) ∧
      (∀ mvp : MvpDashboardState,
        (mvpHandleSendResponse mvp wasEdited).1.original_ai_content =
          if wasEdited then some mvp.aiDraft else none) := by
  intro st wasEdited newId newTime response conf
  refine ⟨?_, ?_, ?_, ?_, fun mvp => rfl⟩
  · intro m hm
    cases hdid : st.aiDraftId with
    | none =>
      refine ⟨m, ?_, rfl⟩
      simp [handleSendResponse, hdid, hm]
    | some draftId =>
      refine ⟨if m.id = draftId then
        applySendPatch st.editedResponse
          (if wasEdited then MessageType.agent_edited else MessageType.final)
          st.aiConfidence (if wasEdited then some st.aiDraft else none) m else m, ?_, ?_⟩
      · simp only [handleSendResponse, hdid]
        exact List.mem_map_of_mem _ hm
      · split_ifs with h <;> simp [applySendPatch]
  · intro hdraft m hm hmtype
    cases hdid : st.aiDraftId with
    | none => simp [handleSendResponse, hdid, hm]
    | some draftId =>
      simp only [handleSendResponse, hdid]
      have hne : ¬ m.id = draftId := by
        intro h
        exact hmtype (hdraft m hm (by rw [hdid, h]))
      have : (fun m' =>
          if m'.id = draftId then
            applySendPatch st.editedResponse
              (if wasEdited then MessageType.agent_edited else MessageType.final)
              st.aiConfidence (if wasEdited then some st.aiDraft else none) m'
          else m') m = m := by
        simp [hne]
      exact this ▸ List.mem_map_of_mem _ hm
  · intro d hd hdid hcontent horig
    constructor
    · refine ⟨applySendPatch st.editedResponse MessageType.agent_edited
        st.aiConfidence (some st.aiDraft) d, ?_, ?_⟩
      · simp only [handleSendResponse, hdid]
        have := List.mem_map_of_mem (fun m =>
          if m.id = d.id then
            applySendPatch st.editedResponse MessageType.agent_edited
              st.aiConfidence (some st.aiDraft) m
          else m) hd
        simpa using this
      · simp [applySendPatch, hcontent]
    · refine ⟨applySendPatch st.editedResponse MessageType.final
        st.aiConfidence none d, ?_, ?_⟩
      · simp only [handleSendResponse, hdid]
        have := List.mem_map_of_mem (fun m =>
          if m.id = d.id then
            applySendPatch st.editedResponse MessageType.final
              st.aiConfidence none m
          else m) hd
        simpa using this
      · simp [applySendPatch, horig]
  · exact ⟨_, rfl, rfl, rfl⟩

/-- Witness for C8 on a concrete two-message conversation whose pending
draft "Draft answer" is edited to "Edited answer" and sent. -/
theorem messages_append_or_draft_update_witness :
    ∃ m' ∈ (handleSendResponse
        { messages :=
            [{ id := 1, conversation_id := 5, content := "Hi"
               message_type := MessageType.customer, confidence_score := none
               created_at := 0, original_ai_content := none },
             { id := 2, conversation_id := 5, content := "Draft answer"
               message_type := MessageType.ai_draft, confidence_score := some (13/20)
               created_at := 1, original_ai_content := none }]
          selectedConvId := 5
          aiDraft := "Draft answer"
          aiDraftId := some 2
          aiConfidence := 13/20
          editedResponse := "Edited answer"
          wasResponseEdited := false
          finalResponseContent := ""
          finalMessageId := none
          agentCorrection := "" } true 99 9).messages,
      m'.id = 2 ∧ m'.content = "Edited answer" ∧
      m'.message_type = MessageType.agent_edited ∧
      m'.original_ai_content = some "Draft answer" := by
  have h := (messages_append_or_draft_update
      { messages :=
          [{ id := 1, conversation_id := 5, content := "Hi"
             message_type := MessageType.customer, confidence_score := none
             created_at := 0, original_ai_content := none },
           { id := 2, conversation_id := 5, content := "Draft answer"
             message_type := MessageType.ai_draft, confidence_score := some (13/20)
             created_at := 1, original_ai_content := none }]
        selectedConvId := 5
        aiDraft := "Draft answer"
        aiDraftId := some 2
        aiConfidence := 13/20
        editedResponse := "Edited answer"
        wasResponseEdited := false
        finalResponseContent := ""
        finalMessageId := none
        agentCorrection := "" } true 99 9 "x" 0).2.2.1
      { id := 2, conversation_id := 5, content := "Draft answer"
        message_type := MessageType.ai_draft, confidence_score := some (13/20)
        created_at := 1, original_ai_content := none }
      (by simp) rfl rfl rfl
  exact h.1

/-- C9: the rendered chat transcript contains exactly the messages whose
type is not `ai_draft` — pending drafts never appear in the transcript. -/
theorem transcript_excludes_drafts :
    ∀ (ms : List Message) (m : Message),
      m ∈ renderedTranscript ms ↔ (m ∈ ms ∧ m.message_type ≠ MessageType.ai_draft) := by
  intro ms m
  simp [renderedTranscript, List.mem_filter]

/-- C10: the MVP dashboard clears the draft state before the feedback form,
so after an edited send ("Original draft" edited to "Better answer") the
submitted correction is `none` even though the sent message records the edit;
the V2 dashboard's fallback correctly yields the final sent content. -/
theorem mvp_feedback_drops_edited_correction :
    ((mvpHandleSendResponse
        { selectedConvId := 5, aiDraft := "Original draft"
          editedResponse := "Better answer", aiConfidence := 1/2 } true).1.content =
      "Better answer") ∧
    ((mvpHandleSendResponse
        { selectedConvId := 5, aiDraft := "Original draft"
          editedResponse := "Better answer", aiConfidence := 1/2 } true).1.original_ai_content =
      some "Original draft") ∧
    ((mvpHandleSubmitFeedback
        (mvpHandleSendResponse
          { selectedConvId := 5, aiDraft := "Original draft"
            editedResponse := "Better answer", aiConfidence := 1/2 } true).2
        "not_helpful" "").agent_correction = none) ∧
    (v2FeedbackCorrection "" true "Better answer" = some "Better answer") := by
  refine ⟨rfl, rfl, ?_, rfl⟩
  simp [mvpHandleSubmitFeedback, mvpHandleSendResponse]

end ChatbotSpec
